import Mathlib

/-!
Verification model of the HotSpot service thread subsystem
(src/hotspot/share/runtime/serviceThread.cpp).

Events carried by `JvmtiDeferredEvent` are identified by natural-number
tags; only their identity matters for the queueing, delivery and
root-scanning properties proved here.
-/

/-- Modelled from the spec: the implementation of `JvmtiDeferredEventQueue`
(declared in prims/jvmtiImpl, not part of the supplied sources) is missing;
spec section 4.1 describes it as an unsynchronized FIFO container where
`enqueue(event)` appends to the tail, `dequeue()` removes and returns the
head (precondition: non-empty), `has_events()` is an O(1) emptiness check,
and the root visit walks every queued event.  The queue is a list of event
tags, head first. -/
structure JvmtiDeferredEventQueue where
  events : List Nat
deriving DecidableEq

/-- Modelled from the spec: append to the tail (spec 4.1 `enqueue`). -/
def JvmtiDeferredEventQueue.enqueue (q : JvmtiDeferredEventQueue) (e : Nat) :
    JvmtiDeferredEventQueue :=
  ⟨q.events ++ [e]⟩

/-- Modelled from the spec: remove and return the head (spec 4.1 `dequeue`);
`none` models a call that violates the non-empty precondition. -/
def JvmtiDeferredEventQueue.dequeue (q : JvmtiDeferredEventQueue) :
    Option (Nat × JvmtiDeferredEventQueue) :=
  match q.events with
  | [] => none
  | e :: rest => some (e, ⟨rest⟩)

/-- Modelled from the spec: O(1) emptiness check (spec 4.1 `has_events`). -/
def JvmtiDeferredEventQueue.has_events (q : JvmtiDeferredEventQueue) : Bool :=
  !q.events.isEmpty

/-- State of the ServiceThread subsystem: the static fields of class
ServiceThread in serviceThread.cpp, plus two history variables.
`jvmti_service_queue` is `_jvmti_service_queue` (line 47),
`jvmti_event` is the in-flight slot `_jvmti_event` (line 43, NULL = `none`),
`instance_installed` records whether `_instance` (line 42) is non-NULL.
`enqueued` records, in the order the Service_lock monitor linearized the
enqueue critical sections, every event ever enqueued; `delivered` records
every event whose `post()` completed, in completion order; `signals` counts
`Service_lock->notify_all()` calls. -/
structure ServiceThreadState where
  jvmti_service_queue : JvmtiDeferredEventQueue
  jvmti_event : Option Nat
  instance_installed : Bool
  enqueued : List Nat
  delivered : List Nat
  signals : Nat
deriving DecidableEq

/-- ServiceThread::enqueue_deferred_event, serviceThread.cpp lines 167-175:
under the Service_lock, assert that `_instance != NULL` (a debug build stops
here when the service thread does not yet run; modelled by returning `none`),
append the event to `_jvmti_service_queue` and `notify_all` the monitor. -/
def enqueue_deferred_event (s : ServiceThreadState) (e : Nat) :
    Option ServiceThreadState :=
  if s.instance_installed then
    some { s with
      jvmti_service_queue := s.jvmti_service_queue.enqueue e,
      enqueued := s.enqueued ++ [e],
      signals := s.signals + 1 }
  else
    none

/-- The atomic transitions of the enqueue/dequeue/delivery protocol.
`enq e` is a producer call to enqueue_deferred_event (lines 167-175, a single
Service_lock critical section).  `dequeueToInflight` is the worker taking a
queued event into the in-flight slot while still holding the lock (lines
125-129: `jvmti_event = _jvmti_service_queue.dequeue(); _jvmti_event =
&jvmti_event;`).  `deliver` is `_jvmti_event->post(); _jvmti_event = NULL;`
(lines 140-143), performed after the lock is released. -/
inductive Step where
  | enq (e : Nat)
  | dequeueToInflight
  | deliver
deriving DecidableEq

/-- Whether the Service_lock is held for the whole of the step: the enqueue
body sits inside a MutexLockerEx (line 168) and the dequeue-into-slot inside
the MutexLockerEx of line 111; delivery happens after that scope closes. -/
def holdsServiceLock : Step → Bool
  | Step.enq _ => true
  | Step.dequeueToInflight => true
  | Step.deliver => false

/-- One atomic transition.  The dequeue step requires the queue non-empty
(the worker only dequeues after observing `has_jvmti_events`, line 125, under
the same lock) and the in-flight slot empty (the worker cleared it at line
142 before looping); delivery requires an in-flight event. -/
def step (s : ServiceThreadState) : Step → Option ServiceThreadState
  | Step.enq e => enqueue_deferred_event s e
  | Step.dequeueToInflight =>
    match s.jvmti_event, s.jvmti_service_queue.dequeue with
    | none, some (e, q) =>
      some { s with jvmti_service_queue := q, jvmti_event := some e }
    | _, _ => none
  | Step.deliver =>
    match s.jvmti_event with
    | some e => some { s with jvmti_event := none, delivered := s.delivered ++ [e] }
    | none => none

/-- The state right after ServiceThread::initialize has installed the
singleton: empty queue, empty in-flight slot, no history. -/
def initState : ServiceThreadState := ⟨⟨[]⟩, none, true, [], [], 0⟩

/-- Run a trace of atomic steps from a given state; `none` when some step's
precondition fails. -/
def runFrom (s : ServiceThreadState) : List Step → Option ServiceThreadState
  | [] => some s
  | st :: tr =>
    match step s st with
    | none => none
    | some s2 => runFrom s2 tr

/-- Run a trace from the initialized state. -/
def run (tr : List Step) : Option ServiceThreadState := runFrom initState tr

/-- The protocol invariant: the linearized enqueue history decomposes as the
delivered events, then the in-flight event (if any), then the queue
contents, in that order. -/
def QueueInv (s : ServiceThreadState) : Prop :=
  s.enqueued = s.delivered ++ s.jvmti_event.toList ++ s.jvmti_service_queue.events

/-- The nine local flags declared at the top of each iteration of
ServiceThread::service_thread_entry (serviceThread.cpp lines 90-98), all
initialized to false.  `acs_notify` (line 94) is declared but never
assigned anywhere in the loop. -/
structure Flags where
  sensors_changed : Bool
  has_jvmti_events : Bool
  has_gc_notification_event : Bool
  has_dcmd_notification_event : Bool
  acs_notify : Bool
  stringtable_work : Bool
  symboltable_work : Bool
  resolved_method_table_work : Bool
  protection_domain_table_work : Bool
deriving DecidableEq

/-- All nine flags false: the values at lines 90-98. -/
def flags0 : Flags := ⟨false, false, false, false, false, false, false, false, false⟩

/-- One observation of the eight external pending-work predicates read by the
wait condition (lines 112-119), in source order:
LowMemoryDetector::has_pending_requests(), _jvmti_service_queue.has_events(),
GCNotifier::has_event(), DCmdFactory::has_pending_jmx_notification(),
StringTable::has_work(), SymbolTable::has_work(),
ResolvedMethodTable::has_work(), SystemDictionary::pd_cache_table()->has_work().
The collaborators own these values (spec treats them as abstract
capabilities), so each is an arbitrary boolean input. -/
structure Pending where
  low_memory_has_pending_requests : Bool
  jvmti_service_queue_has_events : Bool
  gc_notifier_has_event : Bool
  dcmd_has_pending_jmx_notification : Bool
  stringtable_has_work : Bool
  symboltable_has_work : Bool
  resolved_method_table_has_work : Bool
  pd_cache_table_has_work : Bool
deriving DecidableEq

/-- One evaluation of the while condition at lines 112-119:
`!(sensors_changed = P1) && !(has_jvmti_events = P2) && ... && !(ptd_work = P8)`.
C++ `&&` short-circuits, so each predicate is read and assigned to its flag
only if every earlier predicate evaluated to false.  Returns the updated
flags, the value of the condition (true means the loop body runs, i.e. the
thread waits), and how many of the eight predicates were evaluated. -/
def evalWaitCond (p : Pending) (f : Flags) : Flags × Bool × Nat :=
  let f1 := { f with sensors_changed := p.low_memory_has_pending_requests }
  if f1.sensors_changed then (f1, false, 1) else
  let f2 := { f1 with has_jvmti_events := p.jvmti_service_queue_has_events }
  if f2.has_jvmti_events then (f2, false, 2) else
  let f3 := { f2 with has_gc_notification_event := p.gc_notifier_has_event }
  if f3.has_gc_notification_event then (f3, false, 3) else
  let f4 := { f3 with has_dcmd_notification_event := p.dcmd_has_pending_jmx_notification }
  if f4.has_dcmd_notification_event then (f4, false, 4) else
  let f5 := { f4 with stringtable_work := p.stringtable_has_work }
  if f5.stringtable_work then (f5, false, 5) else
  let f6 := { f5 with symboltable_work := p.symboltable_has_work }
  if f6.symboltable_work then (f6, false, 6) else
  let f7 := { f6 with resolved_method_table_work := p.resolved_method_table_has_work }
  if f7.resolved_method_table_work then (f7, false, 7) else
  let f8 := { f7 with protection_domain_table_work := p.pd_cache_table_has_work }
  if f8.protection_domain_table_work then (f8, false, 8) else
  (f8, true, 8)

/-- The wait loop of lines 112-123, driven by the list of predicate
observations made at successive evaluations of the condition (the first
element is the state at loop entry, each later element the state after one
`Service_lock->wait` returns).  Exits with the flags in scope when the
condition turns false; `none` when every observation kept it waiting. -/
def serviceWaitLoop (f : Flags) : List Pending → Option Flags
  | [] => none
  | p :: ps =>
    let r := evalWaitCond p f
    if r.2.1 then serviceWaitLoop r.1 ps else some r.1

/-- The kinds of work the dispatch phase (lines 132-163) can perform. -/
inductive WorkKind where
  | stringTableWork
  | symbolTableWork
  | jvmtiEventWork
  | sensorsWork
  | gcNotificationWork
  | dcmdNotificationWork
  | resolvedMethodTableWork
  | protectionDomainTableWork
deriving DecidableEq, Fintype

/-- The dispatch phase, lines 132-163: the sequence of work operations the
iteration performs, in source order.  Each guard reads only the flag
recorded in the wait phase, never the collaborator's live predicate. -/
def dispatch (f : Flags) : List WorkKind :=
  (if f.stringtable_work then [WorkKind.stringTableWork] else []) ++
  (if f.symboltable_work then [WorkKind.symbolTableWork] else []) ++
  (if f.has_jvmti_events then [WorkKind.jvmtiEventWork] else []) ++
  (if f.sensors_changed then [WorkKind.sensorsWork] else []) ++
  (if f.has_gc_notification_event then [WorkKind.gcNotificationWork] else []) ++
  (if f.has_dcmd_notification_event then [WorkKind.dcmdNotificationWork] else []) ++
  (if f.resolved_method_table_work then [WorkKind.resolvedMethodTableWork] else []) ++
  (if f.protection_domain_table_work then [WorkKind.protectionDomainTableWork] else [])

/-- The fixed priority order of the dispatch phase as listed in the source
(lines 132-163): string table, symbol table, jvmti event delivery, low-memory
sensors, GC notification, dcmd notification, resolved-method table,
protection-domain table. -/
def priorityOrder : List WorkKind :=
  [WorkKind.stringTableWork, WorkKind.symbolTableWork, WorkKind.jvmtiEventWork,
   WorkKind.sensorsWork, WorkKind.gcNotificationWork, WorkKind.dcmdNotificationWork,
   WorkKind.resolvedMethodTableWork, WorkKind.protectionDomainTableWork]

/-- The flag (as recorded in step 2 of the iteration) that guards each work
kind in the dispatch phase. -/
def flagOf (f : Flags) : WorkKind → Bool
  | WorkKind.stringTableWork => f.stringtable_work
  | WorkKind.symbolTableWork => f.symboltable_work
  | WorkKind.jvmtiEventWork => f.has_jvmti_events
  | WorkKind.sensorsWork => f.sensors_changed
  | WorkKind.gcNotificationWork => f.has_gc_notification_event
  | WorkKind.dcmdNotificationWork => f.has_dcmd_notification_event
  | WorkKind.resolvedMethodTableWork => f.resolved_method_table_work
  | WorkKind.protectionDomainTableWork => f.protection_domain_table_work

/-- The first predicate, in wait-condition order (lines 112-119), that an
observation reports pending; `none` when all eight are false. -/
def firstPending (p : Pending) : Option WorkKind :=
  if p.low_memory_has_pending_requests then some WorkKind.sensorsWork
  else if p.jvmti_service_queue_has_events then some WorkKind.jvmtiEventWork
  else if p.gc_notifier_has_event then some WorkKind.gcNotificationWork
  else if p.dcmd_has_pending_jmx_notification then some WorkKind.dcmdNotificationWork
  else if p.stringtable_has_work then some WorkKind.stringTableWork
  else if p.symboltable_has_work then some WorkKind.symbolTableWork
  else if p.resolved_method_table_has_work then some WorkKind.resolvedMethodTableWork
  else if p.pd_cache_table_has_work then some WorkKind.protectionDomainTableWork
  else none

/-- The flag record with exactly one work kind marked true. -/
def singleFlags : WorkKind → Flags
  | WorkKind.sensorsWork => { flags0 with sensors_changed := true }
  | WorkKind.jvmtiEventWork => { flags0 with has_jvmti_events := true }
  | WorkKind.gcNotificationWork => { flags0 with has_gc_notification_event := true }
  | WorkKind.dcmdNotificationWork => { flags0 with has_dcmd_notification_event := true }
  | WorkKind.stringTableWork => { flags0 with stringtable_work := true }
  | WorkKind.symbolTableWork => { flags0 with symboltable_work := true }
  | WorkKind.resolvedMethodTableWork => { flags0 with resolved_method_table_work := true }
  | WorkKind.protectionDomainTableWork => { flags0 with protection_domain_table_work := true }

/-- Position (1-based) of each work kind in the wait-condition evaluation
order of lines 112-119. -/
def condIndex : WorkKind → Nat
  | WorkKind.sensorsWork => 1
  | WorkKind.jvmtiEventWork => 2
  | WorkKind.gcNotificationWork => 3
  | WorkKind.dcmdNotificationWork => 4
  | WorkKind.stringTableWork => 5
  | WorkKind.symbolTableWork => 6
  | WorkKind.resolvedMethodTableWork => 7
  | WorkKind.protectionDomainTableWork => 8

/-- What one evaluation of the wait condition starting from all-false flags
produces: if no predicate is pending, all eight were evaluated, every flag
stays false and the thread waits; otherwise evaluation stopped at the first
pending predicate, exactly that flag is set, and the loop exits. -/
def waitCondSpec (p : Pending) : Flags × Bool × Nat :=
  match firstPending p with
  | none => (flags0, true, 8)
  | some k => (singleFlags k, false, condIndex k)

/-- Number of true flags among the nine locals. -/
def trueCount (f : Flags) : Nat :=
  (if f.sensors_changed then 1 else 0) +
  (if f.has_jvmti_events then 1 else 0) +
  (if f.has_gc_notification_event then 1 else 0) +
  (if f.has_dcmd_notification_event then 1 else 0) +
  (if f.acs_notify then 1 else 0) +
  (if f.stringtable_work then 1 else 0) +
  (if f.symboltable_work then 1 else 0) +
  (if f.resolved_method_table_work then 1 else 0) +
  (if f.protection_domain_table_work then 1 else 0)

/-- ServiceThread::oops_do, serviceThread.cpp lines 177-189: the sequence of
events whose object references the closure pair visits, in visit order.
`cf_nonnull` states whether the CodeBlobClosure argument `cf` is non-NULL:
the whole event scan, in-flight slot first and then (under the Service_lock)
the queue, sits inside `if (cf != NULL)`, so with a NULL `cf` no event is
visited at all.  The `JavaThread::oops_do(f, cf)` call on line 178 visits
only thread-local roots, never deferred events, and is omitted.  The queue
walk itself is modelled from the spec (section 4.1: visit every object
reference of every queued event) because the queue implementation is not
among the supplied sources. -/
def oops_do (s : ServiceThreadState) (cf_nonnull : Bool) : List Nat :=
  if cf_nonnull then s.jvmti_event.toList ++ s.jvmti_service_queue.events
  else []

/-- The global state that ServiceThread::initialize reads and writes:
`instance_thread` is the `_instance` static (line 42), holding the id of the
installed service thread if any, and `threads_created` counts the
ServiceThread objects constructed, registered via Threads::add and started
(lines 66, 83-84); a fresh thread gets the next id. -/
structure VMState where
  instance_thread : Option Nat
  threads_created : Nat
deriving DecidableEq

/-- How a call to ServiceThread::initialize can end. `vm_exit` is the
vm_exit_during_initialization abort path (lines 73-74), which never returns;
`started` is a normal return with the updated globals.  `assert_failed`
represents a debug-build assertion stop; it exists so that the absence of
any assertion in initialize is expressible (no branch of `initialize`
produces it). -/
inductive InitOutcome where
  | vm_exit (exceptionName : String)
  | started (g : VMState)
  | assert_failed (msg : String)
deriving DecidableEq

/-- ServiceThread::initialize, serviceThread.cpp lines 49-86, from the
`new ServiceThread(&service_thread_entry)` on: `thread_is_null` models
`thread == NULL` and `osthread_is_null` models `thread->osthread() == NULL`
(line 72; OS thread creation failed for lack of memory).  On failure the vm
aborts via vm_exit_during_initialization with exception name
"java.lang.OutOfMemoryError" (lines 73-74); otherwise the new thread is
installed as `_instance` (line 81), added to the thread inventory and
started (lines 83-84).  The function never reads the previous `_instance`
value: no branch checks for, or asserts against, a prior initialization. -/
def serviceThreadInit (thread_is_null osthread_is_null : Bool) (g : VMState) : InitOutcome :=
  if thread_is_null || osthread_is_null then
    InitOutcome.vm_exit "java.lang.OutOfMemoryError"
  else
    InitOutcome.started ⟨some g.threads_created, g.threads_created + 1⟩

/-- A trace exercising the FIFO protocol: enqueue tags 1 and 2, then twice
dequeue-and-deliver. -/
def trFIFO : List Step :=
  [Step.enq 1, Step.enq 2, Step.dequeueToInflight, Step.deliver,
   Step.dequeueToInflight, Step.deliver]

/-- The state `run trFIFO` reaches. -/
def sFIFO : ServiceThreadState := ⟨⟨[]⟩, none, true, [1, 2], [1, 2], 2⟩

/-- A trace that enqueues the tag 3 twice and moves one copy in flight. -/
def trPair : List Step := [Step.enq 3, Step.enq 3, Step.dequeueToInflight]

/-- The state `run trPair` reaches. -/
def sPair : ServiceThreadState := ⟨⟨[3]⟩, some 3, true, [3, 3], [], 2⟩

/-- The state `run [Step.enq 7]` reaches: event 7 enqueued, none delivered. -/
def sQueued7 : ServiceThreadState := ⟨⟨[7]⟩, none, true, [7], [], 1⟩

/-- The state before ServiceThread::initialize has run: `_instance` is NULL. -/
def preInitState : ServiceThreadState := ⟨⟨[]⟩, none, false, [], [], 0⟩

/-- An observation where both the low-memory sensors and the deferred-event
queue report pending work. -/
def pendingSensorsAndJvmti : Pending := ⟨true, true, false, false, false, false, false, false⟩

/-- An observation where only the string table reports pending work. -/
def pendingStringOnly : Pending := ⟨false, false, false, false, true, false, false, false⟩

lemma evalWaitCond_flags0 (p : Pending) : evalWaitCond p flags0 = waitCondSpec p := by
  obtain ⟨a, b, c, d, e, f, g, h⟩ := p
  cases a <;> cases b <;> cases c <;> cases d <;> cases e <;> cases f <;> cases g <;>
    cases h <;> rfl

lemma singleFlags_count (k : WorkKind) :
    trueCount (singleFlags k) = 1 ∧ (dispatch (singleFlags k)).length = 1 := by
  cases k <;> exact ⟨rfl, rfl⟩

lemma step_preserves_QueueInv (s : ServiceThreadState) (st : Step)
    (s2 : ServiceThreadState) (hinv : QueueInv s) (hstep : step s st = some s2) :
    QueueInv s2 := by
  cases st with
  | enq e =>
    unfold step enqueue_deferred_event at hstep
    by_cases hi : s.instance_installed
    · simp [hi] at hstep
      subst hstep
      unfold QueueInv JvmtiDeferredEventQueue.enqueue at *
      simp [hinv]
    · simp [hi] at hstep
  | dequeueToInflight =>
    unfold step at hstep
    unfold JvmtiDeferredEventQueue.dequeue at hstep
    cases hj : s.jvmti_event with
    | some e => simp [hj] at hstep
    | none =>
      cases hq : s.jvmti_service_queue.events with
      | nil => simp [hj, hq] at hstep
      | cons e rest =>
        simp [hj, hq] at hstep
        subst hstep
        unfold QueueInv at *
        simp [hj, hq] at hinv ⊢
        exact hinv
  | deliver =>
    unfold step at hstep
    cases hj : s.jvmti_event with
    | none => simp [hj] at hstep
    | some e =>
      simp [hj] at hstep
      subst hstep
      unfold QueueInv at *
      simp [hj] at hinv ⊢
      exact hinv

lemma runFrom_preserves_QueueInv (tr : List Step) :
    ∀ s s2, QueueInv s → runFrom s tr = some s2 → QueueInv s2 := by
  induction tr with
  | nil =>
    intro s s2 hinv hrun
    unfold runFrom at hrun
    simp at hrun
    subst hrun
    exact hinv
  | cons st tr ih =>
    intro s s2 hinv hrun
    unfold runFrom at hrun
    cases hstep : step s st with
    | none => simp [hstep] at hrun
    | some s1 =>
      simp [hstep] at hrun
      exact ih s1 s2 (step_preserves_QueueInv s st s1 hinv hstep) hrun

lemma run_QueueInv (tr : List Step) (s : ServiceThreadState)
    (h : run tr = some s) : QueueInv s := by
  have hinit : QueueInv initState := by unfold QueueInv initState; simp
  exact runFrom_preserves_QueueInv tr initState s hinit h

/-- C1: for every execution of the protocol (every trace of linearized
enqueue, dequeue-into-slot and delivery steps), the linearized enqueue order
decomposes exactly as the delivered events, then the in-flight event, then
the queue contents: deliveries happen in exactly the order in which the
enqueue calls were linearized by the Service_lock monitor, because dequeue
always removes the head of the FIFO queue that enqueue appended to the tail
of; in particular, for a single producer, dequeue order equals that
producer's enqueue order. -/
theorem c1_delivery_follows_enqueue_order (tr : List Step) (s : ServiceThreadState)
    (h : run tr = some s) :
    s.enqueued = s.delivered ++ s.jvmti_event.toList ++ s.jvmti_service_queue.events :=
  run_QueueInv tr s h

/-- Witness for C1: the trace that enqueues tags 1 then 2 and delivers both
reaches the state where delivery order [1, 2] equals enqueue order. -/
theorem c1_delivery_follows_enqueue_order_witness :
    sFIFO.enqueued = sFIFO.delivered ++ sFIFO.jvmti_event.toList ++
      sFIFO.jvmti_service_queue.events :=
  c1_delivery_follows_enqueue_order trFIFO sFIFO rfl

/-- C2: in every reachable state the multiset of enqueued events equals the
multiset of delivered events plus those still in the queue or in flight, so
no event is ever duplicated, lost or skipped (once the queue is drained and
no event is in flight, the delivered multiset equals the enqueued multiset);
moreover any step that changes the queue contents holds the Service_lock. -/
theorem c2_no_loss_no_duplication :
    (∀ tr s, run tr = some s →
      (s.enqueued : Multiset Nat) =
        (s.delivered : Multiset Nat) + (s.jvmti_event.toList : Multiset Nat) +
        (s.jvmti_service_queue.events : Multiset Nat)) ∧
    (∀ s st s2, step s st = some s2 →
      s2.jvmti_service_queue.events ≠ s.jvmti_service_queue.events →
      holdsServiceLock st = true) := by
  constructor
  · intro tr s h
    have hinv := run_QueueInv tr s h
    unfold QueueInv at hinv
    rw [hinv]
    simp [Multiset.coe_add]
  · intro s st s2 hstep hne
    cases st with
    | enq e => rfl
    | dequeueToInflight => rfl
    | deliver =>
      exfalso
      unfold step at hstep
      cases hj : s.jvmti_event with
      | none => simp [hj] at hstep
      | some e =>
        simp [hj] at hstep
        subst hstep
        exact hne rfl

/-- Witness for C2: after enqueueing tag 3 twice and moving one copy in
flight, the multisets still balance; and the enqueue step, which changes the
queue, holds the Service_lock. -/
theorem c2_no_loss_no_duplication_witness :
    ((sPair.enqueued : Multiset Nat) =
      (sPair.delivered : Multiset Nat) + (sPair.jvmti_event.toList : Multiset Nat) +
      (sPair.jvmti_service_queue.events : Multiset Nat)) ∧
    holdsServiceLock (Step.enq 3) = true := by
  constructor
  · exact c2_no_loss_no_duplication.1 trPair sPair rfl
  · exact c2_no_loss_no_duplication.2 initState (Step.enq 3)
      ⟨⟨[3]⟩, none, true, [3], [], 1⟩ rfl (by decide)

/-- C3, evaluated at the failing input: after event 7 is enqueued and before
any delivery, a call to the root-scan hook oops_do whose CodeBlobClosure
argument is NULL visits the event zero times, not exactly once — lines
181-188 place the entire event scan (the in-flight slot and the queue, oop
closure included) inside `if (cf != NULL)`.  The same call with a non-NULL
CodeBlobClosure visits the event exactly once. -/
theorem c3_oops_do_skips_events_when_cf_null :
    run [Step.enq 7] = some sQueued7 ∧
    sQueued7.enqueued = [7] ∧ sQueued7.delivered = [] ∧
    oops_do sQueued7 false = [] ∧
    List.count 7 (oops_do sQueued7 false) = 0 ∧
    List.count 7 (oops_do sQueued7 true) = 1 := by
  refine ⟨rfl, rfl, rfl, rfl, rfl, ?_⟩
  decide

/-- C4 counterexample: with both the low-memory sensors and the
deferred-event queue reporting pending work, one evaluation of the wait
condition of lines 112-119 evaluates only 1 of the 8 predicates (C++ `&&`
short-circuits at the first true one), exits the wait loop, and leaves
has_jvmti_events false even though the queue is non-empty: the recorded
flags are not a complete snapshot of every source's pending-work state. -/
theorem c4_wait_flags_not_complete_snapshot :
    (evalWaitCond pendingSensorsAndJvmti flags0).2.2 = 1 ∧
    (evalWaitCond pendingSensorsAndJvmti flags0).2.1 = false ∧
    pendingSensorsAndJvmti.jvmti_service_queue_has_events = true ∧
    (evalWaitCond pendingSensorsAndJvmti flags0).1.has_jvmti_events = false :=
  ⟨rfl, rfl, rfl, rfl⟩

/-- C4 (amended): each evaluation of the wait condition re-tests the
predicates from the first one, in the fixed source order, and stops at the
first predicate found true, setting exactly that flag; all eight predicates
are evaluated in a single pass only when every one of them is false, in
which case every flag stays false and the thread waits.  The flags recorded
for the dispatch phase therefore identify exactly the first pending source
in test order, not a complete snapshot of every source. -/
theorem c4_wait_condition_short_circuits (p : Pending) :
    evalWaitCond p flags0 = waitCondSpec p :=
  evalWaitCond_flags0 p

/-- C5: the dispatch phase of lines 132-163 services the observed-true work
kinds in one fixed priority order — string table, symbol table, in-flight
jvmti event delivery, low-memory sensors, GC notification, dcmd
notification, resolved-method table, protection-domain table — for every
flag snapshot the dispatch sequence is an order-preserving selection from
that single constant list, hence the same deterministic order on every
iteration. -/
theorem c5_dispatch_fixed_priority_order (f : Flags) :
    (dispatch f).Sublist priorityOrder := by
  have h : ∀ (b : Bool) (x : WorkKind), (if b then [x] else []).Sublist [x] := by
    intro b x
    cases b <;> simp
  unfold dispatch priorityOrder
  exact ((((((((h _ _).append (h _ _)).append (h _ _)).append (h _ _)).append
    (h _ _)).append (h _ _)).append (h _ _)).append (h _ _))

/-- C6: within one iteration, the dispatch phase invokes a work kind exactly
when that kind's flag was observed true in the wait phase of the same
iteration, and then exactly once: the number of occurrences of a kind in the
dispatch sequence is 1 if its recorded flag is true and 0 otherwise.  The
dispatch sequence depends on the recorded flags alone, never on the
collaborators' live predicates, so a predicate that turns true after being
serviced is only seen by the next iteration's wait phase. -/
theorem c6_dispatch_at_most_once_per_observed_flag (f : Flags) (k : WorkKind) :
    List.count k (dispatch f) = if flagOf f k then 1 else 0 := by
  obtain ⟨a, b, c, d, e, f1, f2, f3, f4⟩ := f
  cases k <;> cases a <;> cases b <;> cases c <;> cases d <;> cases e <;>
    cases f1 <;> cases f2 <;> cases f3 <;> cases f4 <;> rfl

/-- C7: while the singleton `_instance` is still NULL, the debug-mode assert
at line 172 stops enqueue_deferred_event (no state is produced); once
initialization has installed the instance, the call always succeeds,
appending the event to the tail of the queue and signalling the condition
variable, all inside the Service_lock critical section. -/
theorem c7_enqueue_asserts_before_init :
    (∀ s e, s.instance_installed = false → enqueue_deferred_event s e = none) ∧
    (∀ s e, s.instance_installed = true →
      enqueue_deferred_event s e = some { s with
        jvmti_service_queue := s.jvmti_service_queue.enqueue e,
        enqueued := s.enqueued ++ [e],
        signals := s.signals + 1 }) := by
  constructor <;> intro s e h <;> simp [enqueue_deferred_event, h]

/-- Witness for C7: enqueueing tag 5 before initialization fails the assert;
enqueueing it after initialization appends it and signals once. -/
theorem c7_enqueue_asserts_before_init_witness :
    enqueue_deferred_event preInitState 5 = none ∧
    enqueue_deferred_event initState 5 = some ⟨⟨[5]⟩, none, true, [5], [], 1⟩ :=
  ⟨c7_enqueue_asserts_before_init.1 preInitState 5 rfl,
   c7_enqueue_asserts_before_init.2 initState 5 rfl⟩

/-- C8: when OS thread creation fails in ServiceThread::initialize (the
constructed thread is null or has no osthread, line 72), the call takes the
vm_exit_during_initialization abort path reporting the out-of-memory-class
failure java.lang.OutOfMemoryError (lines 73-74); it neither returns
normally nor produces any recoverable-error outcome, and there is no retry. -/
theorem c8_init_aborts_on_thread_creation_failure
    (tn osn : Bool) (g : VMState) (h : tn = true ∨ osn = true) :
    serviceThreadInit tn osn g = InitOutcome.vm_exit "java.lang.OutOfMemoryError" := by
  unfold serviceThreadInit
  rcases h with h | h <;> simp [h]

/-- Witness for C8: a failed osthread creation from a fresh VM aborts with
java.lang.OutOfMemoryError. -/
theorem c8_init_aborts_on_thread_creation_failure_witness :
    serviceThreadInit false true ⟨none, 0⟩ =
      InitOutcome.vm_exit "java.lang.OutOfMemoryError" :=
  c8_init_aborts_on_thread_creation_failure false true ⟨none, 0⟩ (Or.inr rfl)

/-- C9 counterexample: the first initialize call on a fresh VM installs
thread 0; a second call is not surfaced as an assertion failure — lines
49-86 never read or check the previous `_instance` — it returns normally,
silently constructing and starting a second worker thread (two threads
created) and overwriting the singleton with the new thread 1. -/
theorem c9_second_init_not_asserted :
    serviceThreadInit false false ⟨none, 0⟩ = InitOutcome.started ⟨some 0, 1⟩ ∧
    serviceThreadInit false false ⟨some 0, 1⟩ = InitOutcome.started ⟨some 1, 2⟩ ∧
    (⟨some 1, 2⟩ : VMState).threads_created = 2 ∧
    some 1 ≠ (⟨some 0, 1⟩ : VMState).instance_thread :=
  ⟨rfl, rfl, rfl, by decide⟩

/-- C9 (amended): calling initialize a second time, after a first call has
already installed the singleton, is not detected: no assertion fires, the
call returns normally, a second worker thread is constructed, registered and
started, and `_instance` is overwritten with the new thread. -/
theorem c9_second_init_overwrites_singleton (g : VMState)
    (h : g.instance_thread.isSome = true) :
    serviceThreadInit false false g =
      InitOutcome.started ⟨some g.threads_created, g.threads_created + 1⟩ := rfl

/-- Witness for C9 (amended), at the state left by the first initialize
call. -/
theorem c9_second_init_overwrites_singleton_witness :
    serviceThreadInit false false ⟨some 0, 1⟩ = InitOutcome.started ⟨some 1, 2⟩ :=
  c9_second_init_overwrites_singleton ⟨some 0, 1⟩ rfl

/-- C10: whenever the wait loop of lines 112-123 exits (the nine flag locals
all start false, lines 90-98), exactly one of the nine flags is true: the
short-circuit evaluation of the wait condition stops at the first predicate
found true and leaves every later flag at its previous false value, so the
dispatch phase of that iteration performs exactly one kind of work and all
other pending work waits for subsequent iterations. -/
theorem c10_exactly_one_flag_on_wait_exit (ps : List Pending) (f : Flags)
    (h : serviceWaitLoop flags0 ps = some f) :
    trueCount f = 1 ∧ (dispatch f).length = 1 := by
  induction ps with
  | nil => simp [serviceWaitLoop] at h
  | cons p ps ih =>
    unfold serviceWaitLoop at h
    rw [evalWaitCond_flags0 p] at h
    cases hfp : firstPending p with
    | none =>
      simp [waitCondSpec, hfp] at h
      exact ih h
    | some k =>
      simp [waitCondSpec, hfp] at h
      subst h
      exact singleFlags_count k

/-- Witness for C10: an observation where only the string table has work
exits the wait loop at once with exactly the string-table flag set. -/
theorem c10_exactly_one_flag_on_wait_exit_witness :
    trueCount (singleFlags WorkKind.stringTableWork) = 1 ∧
    (dispatch (singleFlags WorkKind.stringTableWork)).length = 1 :=
  c10_exactly_one_flag_on_wait_exit [pendingStringOnly]
    (singleFlags WorkKind.stringTableWork) rfl
